import Mathlib

/-!
Shallow embedding of the Moveris streaming client
(src/live/python/moveris_client.py) and proofs of the specified
properties of its connection lifecycle, bounded latency tracking,
producer/consumer loops and teardown.

Modelling conventions:
* wall-clock timestamps are rationals (Python floats carry exact
  arithmetic here; no rounding is relevant to any property);
* the websocket handle and the camera handle are modelled by a Bool
  recording whether they are open (the only observations the client
  makes of them);
* the Python dict `send_times` is modelled as an association list in
  insertion order; in every reachable state its keys are the strictly
  increasing frame counters, so insertion appends a fresh key at the
  tail exactly as the dict does;
* fallible operations return an `Except` or carry an explicit Bool for
  the success of the underlying I/O (a raised exception inside a
  `try` block that returns False is modelled by the Bool `false`);
* each loop is driven by an explicit finite list of iteration events
  (message arrived / receive timed out / payload malformed /
  unexpected fault) and returns the final state together with a trace
  of its observable actions.
-/

/-- The mutable attributes of `MoverisClient` set up in `__init__`. -/
structure ClientState where
  ws_url : String
  secret_key : String
  frame_rate : Nat
  quality : Nat
  /-- `self.websocket` is open (non-None). -/
  websocket : Bool
  is_authenticated : Bool
  is_streaming : Bool
  frame_count : Nat
  server_buffer : Nat
  connection_start : Option ℚ
  /-- `self.send_times`: dict from frame number to send timestamp,
  as an association list in insertion order. -/
  send_times : List (Nat × ℚ)
  /-- `self.ack_times`: list of recent ACK latencies (ms). -/
  ack_times : List ℚ
  /-- `self.frame_times` (initialised, never used afterwards). -/
  frame_times : List ℚ
  /-- `self.camera` is open (non-None). -/
  camera : Bool
deriving DecidableEq

/-- `MoverisClient.__init__`. -/
def initClient (ws_url secret_key : String) (frame_rate quality : Nat) : ClientState :=
  { ws_url := ws_url
    secret_key := secret_key
    frame_rate := frame_rate
    quality := quality
    websocket := false
    is_authenticated := false
    is_streaming := false
    frame_count := 0
    server_buffer := 0
    connection_start := none
    send_times := []
    ack_times := []
    frame_times := []
    camera := false }

/-- A freshly constructed client with the defaults used by `main`. -/
def initialState : ClientState :=
  initClient "wss://developers.moveris.com/ws/live/v1/" "" 10 70

/-- `connect`: on transport success opens the websocket and records
`connection_start`; on failure leaves the state unchanged.  The Bool
argument is the outcome of `websockets.connect`. -/
def connect (now : ℚ) (transportOk : Bool) (s : ClientState) : ClientState × Bool :=
  if transportOk then
    ({ s with websocket := true, connection_start := some now }, true)
  else (s, false)

/-- `open_camera`: on success holds the camera handle. -/
def open_camera (cameraOk : Bool) (s : ClientState) : ClientState × Bool :=
  if cameraOk then ({ s with camera := true }, true) else (s, false)

/-- The clean-up step inside `send_frame`
(`if len(self.send_times) > 1000: old_keys = sorted(...)[:-1000]; del ...`):
when the dict holds more than 1000 entries, delete the entries whose
keys are all but the 1000 largest in sorted key order. -/
def evictOldSendTimes (st : List (Nat × ℚ)) : List (Nat × ℚ) :=
  if 1000 < st.length then
    let sortedKeys := (st.map Prod.fst).mergeSort
    let oldKeys := sortedKeys.take (sortedKeys.length - 1000)
    st.filter (fun p => decide (p.1 ∉ oldKeys))
  else st

/-- `send_frame`: refuses when the websocket is closed or the client is
unauthenticated; otherwise increments `frame_count`, records the send
time under the new frame number, trims `send_times` to the last 1000
entries, and transmits.  `transmitOk` is the outcome of
`websocket.send`; when it raises, the exception handler returns False
but the state mutations made before the send persist. -/
def send_frame (send_time : ℚ) (transmitOk : Bool) (s : ClientState) : ClientState × Bool :=
  if !s.websocket || !s.is_authenticated then (s, false)
  else
    let fc := s.frame_count + 1
    let inserted := s.send_times ++ [(fc, send_time)]
    ({ s with frame_count := fc, send_times := evictOldSendTimes inserted }, transmitOk)

/-- Folding a sequence of `send_frame` operations over a state:
each event is the send timestamp and the transmit outcome. -/
def runSends (s : ClientState) (events : List (ℚ × Bool)) : ClientState :=
  events.foldl (fun acc e => (send_frame e.1 e.2 acc).1) s

/-- The ACK-latency block of the `frame_received` branch of
`handle_messages`: if the frame number is a known pending send,
compute the latency in ms, append it to `ack_times` (dropping the
head when the list exceeds 50) and delete the pending entry;
otherwise nothing changes and no latency is produced. -/
def record_ack (receive_time : ℚ) (frame_num : Nat) (s : ClientState) :
    ClientState × Option ℚ :=
  match s.send_times.lookup frame_num with
  | some sendT =>
      let lat := (receive_time - sendT) * 1000
      let appended := s.ack_times ++ [lat]
      let acks := if 50 < appended.length then appended.drop 1 else appended
      ({ s with
          ack_times := acks
          send_times := s.send_times.filter (fun p => decide (p.1 ≠ frame_num)) },
        some lat)
  | none => (s, none)

/-- Well-formed inbound server messages, by their `type` tag. -/
inductive InMsg where
  | frame_received (frame_number : Nat) (total_frames : Nat)
  | processing_started (message : String)
  | processing_complete (frames_processed : Nat)
  | error (message : String)
  | disconnect (reason : String)
deriving DecidableEq

/-- Dispatch of one parsed message inside `handle_messages`.  Returns
the next state and whether the branch executed `break`.  Only the
`disconnect` branch clears `is_streaming` and breaks; every other
branch is observational (the `frame_received` branch also records the
ACK latency and overwrites `server_buffer`). -/
def processMsg (receive_time : ℚ) (m : InMsg) (s : ClientState) : ClientState × Bool :=
  match m with
  | .frame_received frame_num total_frames =>
      let s1 := (record_ack receive_time frame_num s).1
      ({ s1 with server_buffer := total_frames }, false)
  | .processing_started _ => (s, false)
  | .processing_complete _ => (s, false)
  | .error _ => (s, false)
  | .disconnect _ => ({ s with is_streaming := false }, true)

/-- One iteration's worth of input to the consumer loop. -/
inductive ConsEvent where
  | recvTimeout
  | malformed
  | msg (receive_time : ℚ) (m : InMsg)
  | fault
deriving DecidableEq

/-- Observable actions of the two loops. -/
inductive LoopAction where
  | sent (frame_number : Nat) (ok : Bool)
  | captureSkipped
  | slept (secs : ℚ)
  | faultBackoff (secs : ℚ)
  | recvTimedOut
  | malformedSkipped
  | consumed (m : InMsg)
  | faultExit
deriving DecidableEq

/-- `handle_messages`: loops while `is_streaming and websocket`.  A
receive timeout or a JSON decode error is caught by the inner handler
and the loop continues; a parsed message is dispatched (a `disconnect`
message breaks the loop); any other exception raised inside an
iteration escapes the `while` and is caught only by the handler
outside it, so the loop terminates at once. -/
def handle_messages (s : ClientState) : List ConsEvent → ClientState × List LoopAction
  | [] => (s, [])
  | e :: rest =>
      if s.is_streaming && s.websocket then
        match e with
        | .recvTimeout =>
            let r := handle_messages s rest
            (r.1, .recvTimedOut :: r.2)
        | .malformed =>
            let r := handle_messages s rest
            (r.1, .malformedSkipped :: r.2)
        | .msg t m =>
            let pm := processMsg t m s
            if pm.2 then (pm.1, [.consumed m])
            else
              let r := handle_messages pm.1 rest
              (r.1, .consumed m :: r.2)
        | .fault => (s, [.faultExit])
      else (s, [])

/-- Truthiness of `capture_frame`'s result (`if frame_data:`): a frame
was captured and its base64 encoding is non-empty. -/
def truthy : Option String → Bool
  | none => false
  | some d => !(d == "")

/-- One iteration's worth of input to the producer loop: either a
normal iteration (capture result, send timestamp, transmit outcome,
the two wall-clock samples taken after the send) or an unexpected
fault raised inside the iteration. -/
inductive ProdEvent where
  | iter (captured : Option String) (tSend : ℚ) (transmitOk : Bool) (now : ℚ) (tEnd : ℚ)
  | fault (now : ℚ)
deriving DecidableEq

/-- `stream_frames`: loops while `is_streaming`; captures (skipping the
send when capture fails), sends, then sleeps `max 0 (1/frame_rate −
elapsed)` measured against the previous iteration's end time.  An
unexpected exception in an iteration is caught inside the loop and
answered with a fixed 0.1 s sleep, after which the loop continues. -/
def stream_frames (s : ClientState) (last_frame_time : ℚ) :
    List ProdEvent → ClientState × List LoopAction
  | [] => (s, [])
  | .iter cap tSend ok now tEnd :: rest =>
      if s.is_streaming then
        let step :
            ClientState × List LoopAction :=
          if truthy cap then
            let sf := send_frame tSend ok s
            (sf.1, [.sent sf.1.frame_count sf.2])
          else (s, [.captureSkipped])
        let sleepT := max 0 (1 / (s.frame_rate : ℚ) - (now - last_frame_time))
        let r := stream_frames step.1 tEnd rest
        (r.1, step.2 ++ (if 0 < sleepT then [.slept sleepT] else []) ++ r.2)
      else (s, [])
  | .fault _ :: rest =>
      if s.is_streaming then
        let r := stream_frames s last_frame_time rest
        (r.1, .faultBackoff (1 / 10) :: r.2)
      else (s, [])

/-- The frame numbers of the frames handed to `websocket.send`, in
order, read off a producer trace. -/
def sentNumbers : List LoopAction → List Nat
  | [] => []
  | .sent n _ :: rest => n :: sentNumbers rest
  | _ :: rest => sentNumbers rest

/-- The state of the client right after `connect`, `authenticate` and
`open_camera` all succeeded at time 0 and streaming started. -/
def readyState : ClientState :=
  { initialState with
      websocket := true
      is_authenticated := true
      is_streaming := true
      camera := true
      connection_start := some 0 }

/-- One iteration's worth of input to the `authenticate` polling loop:
either `asyncio.wait_for` timed out after its 1 s budget, or a message
with the given `type` tag and `message` field arrived after `d`
milliseconds of waiting. -/
inductive AuthEvent where
  | recvTimeout
  | received (d : Nat) (tag : String) (message : String)
deriving DecidableEq

/-- Outcome of `authenticate` (the code returns a bare Bool but logs
which branch produced it; the branches are distinguished here). -/
inductive AuthResult where
  | success
  | explicitError (message : String)
  | timeoutFail
  | noSocket
deriving DecidableEq

/-- The polling loop of `authenticate`: while fewer than 10 000 ms have
elapsed, wait up to 1 s for a message; `auth_success` succeeds, an
`error` message fails with the server's reason, anything else (or a
receive timeout) loops.  When the window elapses the loop falls
through to the timeout failure.  Time is counted in milliseconds. -/
def authLoop (elapsed : Nat) (evs : List AuthEvent) : AuthResult :=
  if 10000 ≤ elapsed then .timeoutFail
  else
    match evs with
    | [] => authLoop (elapsed + 1000) []
    | .recvTimeout :: rest => authLoop (elapsed + 1000) rest
    | .received d tag message :: rest =>
        if tag = "auth_success" then .success
        else if tag = "error" then .explicitError message
        else authLoop (elapsed + d) rest
termination_by (evs.length, 10000 - elapsed)
decreasing_by
  all_goals simp_wf
  · omega
  · omega
  · omega

/-- `authenticate`: returns immediately when no websocket is open,
otherwise sends the auth request and runs the polling loop; on success
`is_authenticated` is set. -/
def authenticate (s : ClientState) (evs : List AuthEvent) : AuthResult × ClientState :=
  if s.websocket then
    match authLoop 0 evs with
    | .success => (.success, { s with is_authenticated := true })
    | r => (r, s)
  else (.noSocket, s)

/-- What `disconnect` reports: whether it released the camera, whether
it closed the websocket, and the final stats line
(duration, frames sent, average fps) when `connection_start` was set. -/
structure DisconnectLog where
  camera_released : Bool
  websocket_closed : Bool
  stats : Option (ℚ × Nat × ℚ)
deriving DecidableEq

/-- `disconnect`: clears the streaming flag, releases the camera if
held, closes the websocket if open, and — when `connection_start` was
recorded — computes the stats line, whose average-fps term
`frame_count / duration` raises ZeroDivisionError (modelled as
`Except.error ()`) when `duration = 0`; there is no guard. -/
def disconnect (now : ℚ) (s : ClientState) : Except Unit (ClientState × DisconnectLog) :=
  let s1 := { s with is_streaming := false }
  let cam : ClientState × Bool :=
    if s1.camera then ({ s1 with camera := false }, true) else (s1, false)
  let ws : ClientState × Bool :=
    if cam.1.websocket then ({ cam.1 with websocket := false }, true) else (cam.1, false)
  match ws.1.connection_start with
  | some t0 =>
      let duration := now - t0
      if duration = 0 then .error ()
      else
        .ok (ws.1,
          { camera_released := cam.2
            websocket_closed := ws.2
            stats := some (duration, ws.1.frame_count, (ws.1.frame_count : ℚ) / duration) })
  | none =>
      .ok (ws.1,
        { camera_released := cam.2, websocket_closed := ws.2, stats := none })

/-- Run invariant of `send_times` under producer sends: keys are the
strictly increasing frame counters, all at most the current
`frame_count`, and the dict holds at most 1000 entries. -/
def SendInv (s : ClientState) : Prop :=
  s.send_times.Pairwise (fun p q => p.1 < q.1)
  ∧ (∀ p ∈ s.send_times, p.1 ≤ s.frame_count)
  ∧ s.send_times.length ≤ 1000

/-! ## Helper lemmas -/

theorem record_ack_preserves_flags (t : ℚ) (fn : Nat) (s : ClientState) :
    ((record_ack t fn s).1).is_streaming = s.is_streaming
    ∧ ((record_ack t fn s).1).websocket = s.websocket := by
  unfold record_ack
  cases hl : s.send_times.lookup fn <;> simp [hl]

theorem send_frame_preserves_flags (t : ℚ) (ok : Bool) (s : ClientState) :
    (send_frame t ok s).1.websocket = s.websocket
    ∧ (send_frame t ok s).1.is_authenticated = s.is_authenticated
    ∧ (send_frame t ok s).1.is_streaming = s.is_streaming := by
  unfold send_frame
  split <;> simp

theorem send_frame_increments (t : ℚ) (ok : Bool) (s : ClientState)
    (hw : s.websocket = true) (ha : s.is_authenticated = true) :
    (send_frame t ok s).1.frame_count = s.frame_count + 1
    ∧ (send_frame t ok s).2 = ok := by
  simp [send_frame, hw, ha]

/-! ## C10 -/

/-- C10: `send_frame` called with no open websocket or before
authentication succeeded returns failure and leaves the entire state
unchanged: `frame_count` is not incremented, nothing is inserted into
`send_times`, and nothing is transmitted. -/
theorem send_frame_unready_no_change (s : ClientState) (t : ℚ) (ok : Bool)
    (h : s.websocket = false ∨ s.is_authenticated = false) :
    send_frame t ok s = (s, false) := by
  unfold send_frame
  rcases h with h | h <;> simp [h]

/-- Witness for C10 at the freshly initialised client. -/
theorem send_frame_unready_no_change_witness :
    send_frame 0 true initialState = (initialState, false) :=
  send_frame_unready_no_change initialState 0 true (Or.inl rfl)

/-! ## C9 -/

/-- C9: an acknowledgement whose frame number is not a pending send
yields no latency and leaves `ack_times` (and the rest of the state)
unchanged. -/
theorem record_ack_unknown_no_change (s : ClientState) (t : ℚ) (fn : Nat)
    (h : s.send_times.lookup fn = none) :
    record_ack t fn s = (s, none) := by
  unfold record_ack
  rw [h]

/-- Witness for C9: frame 7 was never sent by the fresh client. -/
theorem record_ack_unknown_no_change_witness :
    record_ack 3 7 initialState = (initialState, none) :=
  record_ack_unknown_no_change initialState 3 7 rfl

/-! ## C3 -/

/-- C3 counterexample: a session whose teardown happens at the very
instant recorded in `connection_start` has `duration = 0`, and the
final-stats computation `frame_count / duration` is not guarded: it
raises ZeroDivisionError (modelled as `Except.error ()`), so
`disconnect` faults on a zero-length session. -/
theorem disconnect_zero_duration_faults :
    disconnect 5 { readyState with connection_start := some 5 } = Except.error () := by
  simp [disconnect, readyState, initialState, initClient]

/-- C3 amended: the average-rate computation has no division-by-zero
guard.  `disconnect` completes without fault whenever either no
`connection_start` was recorded or the duration is non-zero, and it
faults whenever `connection_start` was recorded and the wall clock at
teardown equals it (duration 0). -/
theorem disconnect_stats_no_guard :
    (∀ (s : ClientState) (now : ℚ),
        (∀ t0, s.connection_start = some t0 → now - t0 ≠ 0) →
        ∃ r, disconnect now s = Except.ok r)
    ∧ (∀ (s : ClientState) (t0 : ℚ), s.connection_start = some t0 →
        disconnect t0 s = Except.error ()) := by
  constructor
  · intro s now h
    cases hcam : s.camera <;> cases hws : s.websocket <;> cases hcs : s.connection_start <;>
      simp_all [disconnect]
  · intro s t0 h
    cases hcam : s.camera <;> cases hws : s.websocket <;> simp [disconnect, hcam, hws, h]

/-- Witness for C3 amended: a one-second session tears down cleanly
and a zero-length session faults. -/
theorem disconnect_stats_no_guard_witness :
    (∃ r, disconnect 1 readyState = Except.ok r)
    ∧ disconnect 0 readyState = Except.error () :=
  ⟨disconnect_stats_no_guard.1 readyState 1
      (by
        intro t0 ht
        have h0 : t0 = 0 := by
          have := ht.symm.trans (show readyState.connection_start = some 0 from rfl)
          simpa using this
        subst h0
        simp),
    disconnect_stats_no_guard.2 readyState 0 rfl⟩

/-! ## C2 (counterexample) -/

/-- C2 counterexample: a transmission that fails (the websocket send
raises and `send_frame` returns False) still increments `frame_count`:
the counter counts attempts, not successful transmissions. -/
theorem failed_transmit_still_increments :
    (send_frame 0 false readyState).2 = false
    ∧ (send_frame 0 false readyState).1.frame_count = readyState.frame_count + 1 := by
  constructor <;> rfl

/-! ## C4 -/

/-- C4 counterexample: in `handle_messages` the catch-all handler sits
outside the `while` loop, so an unexpected fault inside a consumer
iteration terminates the loop: the following `disconnect` message is
never processed, the state is unchanged (the streaming flag is still
set), and no 0.1 s backoff happens — refuting the claim that both
loops absorb faults with a backoff and continue. -/
theorem consumer_fault_not_recovered :
    handle_messages readyState [ConsEvent.fault, ConsEvent.msg 0 (InMsg.disconnect "bye")]
      = (readyState, [LoopAction.faultExit])
    ∧ readyState.is_streaming = true := by
  exact ⟨rfl, rfl⟩

/-- C4 amended: the two loops differ.  In `stream_frames` an
unexpected fault in an iteration is absorbed with a fixed 0.1 s
backoff and the loop continues with the next iteration; in
`handle_messages` an unexpected fault escapes the loop (the catch-all
is outside the `while`), terminating it at once with the state
unchanged and no backoff. -/
theorem loop_fault_recovery :
    (∀ (s : ClientState) (last now : ℚ) (rest : List ProdEvent), s.is_streaming = true →
        stream_frames s last (ProdEvent.fault now :: rest)
          = ((stream_frames s last rest).1,
             LoopAction.faultBackoff (1 / 10) :: (stream_frames s last rest).2))
    ∧ (∀ (s : ClientState) (rest : List ConsEvent),
        s.is_streaming = true → s.websocket = true →
        handle_messages s (ConsEvent.fault :: rest) = (s, [LoopAction.faultExit])) := by
  constructor
  · intro s last now rest hs
    simp [stream_frames, hs]
  · intro s rest hs hw
    simp [handle_messages, hs, hw]

/-- Witness for C4 amended, on the ready client. -/
theorem loop_fault_recovery_witness :
    stream_frames readyState 0 [ProdEvent.fault 1]
      = ((stream_frames readyState 0 []).1,
         LoopAction.faultBackoff (1 / 10) :: (stream_frames readyState 0 []).2)
    ∧ handle_messages readyState [ConsEvent.fault] = (readyState, [LoopAction.faultExit]) :=
  ⟨loop_fault_recovery.1 readyState 0 1 [] rfl, loop_fault_recovery.2 readyState [] rfl rfl⟩

/-! ## C8 -/

/-- C8: among the handled message types only `disconnect` has a
control-flow effect.  Processing a `disconnect` clears the streaming
flag, takes the `break`, and ends the consumer loop; processing any
other message leaves the streaming flag set, does not break, and the
loop continues with the remaining events. -/
theorem only_disconnect_has_control_effect (s : ClientState) (t : ℚ) (m : InMsg)
    (rest : List ConsEvent) (hs : s.is_streaming = true) (hw : s.websocket = true) :
    ((∀ r, m ≠ InMsg.disconnect r) →
        (processMsg t m s).1.is_streaming = true
        ∧ (processMsg t m s).2 = false
        ∧ handle_messages s (ConsEvent.msg t m :: rest)
            = ((handle_messages (processMsg t m s).1 rest).1,
               LoopAction.consumed m :: (handle_messages (processMsg t m s).1 rest).2))
    ∧ (∀ r, m = InMsg.disconnect r →
        (processMsg t m s).1.is_streaming = false
        ∧ (processMsg t m s).2 = true
        ∧ handle_messages s (ConsEvent.msg t m :: rest)
            = ({ s with is_streaming := false }, [LoopAction.consumed m])) := by
  constructor
  · intro hnd
    cases m with
    | frame_received fn tf =>
        refine ⟨?_, rfl, ?_⟩
        · simp [processMsg, (record_ack_preserves_flags t fn s).1, hs]
        · simp [handle_messages, hs, hw, processMsg]
    | processing_started msg =>
        exact ⟨hs, rfl, by simp [handle_messages, hs, hw, processMsg]⟩
    | processing_complete fp =>
        exact ⟨hs, rfl, by simp [handle_messages, hs, hw, processMsg]⟩
    | error msg =>
        exact ⟨hs, rfl, by simp [handle_messages, hs, hw, processMsg]⟩
    | disconnect r => exact absurd rfl (hnd r)
  · rintro r rfl
    exact ⟨rfl, rfl, by simp [handle_messages, hs, hw, processMsg]⟩

/-- Witness for C8: a server `error` message is observational while a
server `disconnect` message clears the flag and ends the loop. -/
theorem only_disconnect_has_control_effect_witness :
    (processMsg 0 (InMsg.error "oops") readyState).1.is_streaming = true
    ∧ handle_messages readyState [ConsEvent.msg 0 (InMsg.disconnect "bye")]
        = ({ readyState with is_streaming := false },
           [LoopAction.consumed (InMsg.disconnect "bye")]) :=
  ⟨((only_disconnect_has_control_effect readyState 0 (InMsg.error "oops") [] rfl rfl).1
      (fun _ h => InMsg.noConfusion h)).1,
   (((only_disconnect_has_control_effect readyState 0 (InMsg.disconnect "bye") [] rfl rfl).2
      "bye" rfl).2).2⟩

/-! ## C6 -/

/-- With no messages left, the polling loop keeps timing out once per
second until the 10 s window elapses and then reports timeout. -/
theorem authLoop_nil_timeout : ∀ (n elapsed : Nat), 10000 - elapsed ≤ n →
    authLoop elapsed [] = AuthResult.timeoutFail := by
  intro n
  induction n with
  | zero =>
      intro elapsed h
      rw [authLoop.eq_def]
      simp only [if_pos (by omega : 10000 ≤ elapsed)]
  | succ n ih =>
      intro elapsed h
      rw [authLoop.eq_def]
      by_cases h10 : 10000 ≤ elapsed
      · simp [h10]
      · simp only [if_neg h10]
        exact ih (elapsed + 1000) (by omega)

/-- If no inbound message is an `auth_success` or an `error`, the
polling loop reports timeout from any starting point. -/
theorem authLoop_no_definitive (evs : List AuthEvent)
    (h : ∀ d tag msg, AuthEvent.received d tag msg ∈ evs →
          tag ≠ "auth_success" ∧ tag ≠ "error") :
    ∀ elapsed, authLoop elapsed evs = AuthResult.timeoutFail := by
  induction evs with
  | nil => intro elapsed; exact authLoop_nil_timeout (10000 - elapsed) elapsed (le_refl _)
  | cons e rest ih =>
      have hrest : ∀ d tag msg, AuthEvent.received d tag msg ∈ rest →
          tag ≠ "auth_success" ∧ tag ≠ "error" := by
        intro d tag msg hm
        exact h d tag msg (List.mem_cons_of_mem _ hm)
      intro elapsed
      rw [authLoop.eq_def]
      by_cases h10 : 10000 ≤ elapsed
      · simp [h10]
      · simp only [if_neg h10]
        cases e with
        | recvTimeout => exact ih hrest (elapsed + 1000)
        | received d tag msg =>
            have htag := h d tag msg (List.mem_cons_self _ _)
            simp only [if_neg htag.1, if_neg htag.2]
            exact ih hrest (elapsed + d)

/-- C6: when neither an explicit `auth_success` nor an explicit
`error` message arrives, `authenticate` returns the timeout failure.
The loop is a total function of its (finite) event list — the model's
form of "it terminates rather than hanging": with no messages at all
it walks the ten 1-second receive timeouts and exits the window. -/
theorem authenticate_timeout_on_no_definitive (s : ClientState) (evs : List AuthEvent)
    (hw : s.websocket = true)
    (h : ∀ d tag msg, AuthEvent.received d tag msg ∈ evs →
          tag ≠ "auth_success" ∧ tag ≠ "error") :
    authenticate s evs = (AuthResult.timeoutFail, s) := by
  simp [authenticate, hw, authLoop_no_definitive evs h 0]

/-- Witness for C6: a lone non-definitive status message inside the
window still ends in the timeout failure. -/
theorem authenticate_timeout_on_no_definitive_witness :
    authenticate readyState [AuthEvent.received 5 "processing_started" "warming up"]
      = (AuthResult.timeoutFail, readyState) :=
  authenticate_timeout_on_no_definitive readyState _ rfl (by
    intro d tag msg hm
    simp only [List.mem_singleton] at hm
    injection hm with h1 h2 h3
    subst h2
    exact ⟨by decide, by decide⟩)

/-! ## C5 -/

theorem record_ack_ack_bound (t : ℚ) (fn : Nat) (s : ClientState)
    (h : s.ack_times.length ≤ 50) :
    ((record_ack t fn s).1).ack_times.length ≤ 50 := by
  unfold record_ack
  cases hl : s.send_times.lookup fn
  · simpa [hl] using h
  · simp only [hl]
    split <;> simp_all

theorem processMsg_ack_bound (t : ℚ) (m : InMsg) (s : ClientState)
    (h : s.ack_times.length ≤ 50) : ((processMsg t m s).1).ack_times.length ≤ 50 := by
  cases m with
  | frame_received fn tf =>
      simpa [processMsg] using record_ack_ack_bound t fn s h
  | processing_started msg => simpa [processMsg] using h
  | processing_complete fp => simpa [processMsg] using h
  | error msg => simpa [processMsg] using h
  | disconnect r => simpa [processMsg] using h

theorem handle_messages_ack_bound (evs : List ConsEvent) :
    ∀ s : ClientState, s.ack_times.length ≤ 50 →
      ((handle_messages s evs).1).ack_times.length ≤ 50 := by
  induction evs with
  | nil => intro s h; simpa [handle_messages] using h
  | cons e rest ih =>
      intro s h
      by_cases hc : s.is_streaming && s.websocket
      · cases e with
        | recvTimeout =>
            simp only [handle_messages, if_pos hc]
            exact ih s h
        | malformed =>
            simp only [handle_messages, if_pos hc]
            exact ih s h
        | msg t m =>
            simp only [handle_messages, if_pos hc]
            by_cases hb : (processMsg t m s).2
            · simp only [hb, if_true]
              exact processMsg_ack_bound t m s h
            · simp only [hb, Bool.false_eq_true, if_false]
              exact ih _ (processMsg_ack_bound t m s h)
        | fault =>
            simp only [handle_messages, if_pos hc]
            exact h
      · cases e <;> simp only [handle_messages, if_neg hc] <;> exact h

/-- C5: for every sequence of messages processed by the consumer,
`ack_times` holds at most 50 samples afterwards (sessions start at 0
samples, so the bound is an invariant of every run), and when the
insertion of a new latency sample overflows the cap the evicted sample
is exactly the head — the oldest-inserted one. -/
theorem latency_samples_bounded_fifo :
    (∀ (s : ClientState) (evs : List ConsEvent), s.ack_times.length ≤ 50 →
        ((handle_messages s evs).1).ack_times.length ≤ 50)
    ∧ (∀ (s : ClientState) (t : ℚ) (fn : Nat) (sendT : ℚ),
        s.send_times.lookup fn = some sendT → s.ack_times.length = 50 →
        ((record_ack t fn s).1).ack_times
          = s.ack_times.tail ++ [(t - sendT) * 1000]) := by
  constructor
  · intro s evs h
    exact handle_messages_ack_bound evs s h
  · intro s t fn sendT hl hlen
    unfold record_ack
    simp only [hl]
    have hgt : 50 < (s.ack_times ++ [(t - sendT) * 1000]).length := by simp [hlen]
    simp only [if_pos hgt]
    rw [List.drop_append_of_le_length (by omega), List.drop_one]

/-- Witness for C5: one acknowledged frame on a full 50-sample window
evicts the head sample. -/
theorem latency_samples_bounded_fifo_witness :
    ((handle_messages readyState [ConsEvent.msg 0 (InMsg.frame_received 1 2)]).1).ack_times.length ≤ 50
    ∧ ((record_ack 4 3 { readyState with
          send_times := [(3, 2)], ack_times := List.replicate 50 0 }).1).ack_times
        = (List.replicate 50 (0 : ℚ)).tail ++ [(4 - 2) * 1000] :=
  ⟨latency_samples_bounded_fifo.1 readyState [ConsEvent.msg 0 (InMsg.frame_received 1 2)]
      (by decide),
   latency_samples_bounded_fifo.2
      { readyState with send_times := [(3, 2)], ack_times := List.replicate 50 0 }
      4 3 2 (by simp) (by simp)⟩

/-! ## C7 -/

/-- Closed form of `disconnect`: the streaming flag is cleared, both
handles end closed, a handle is released iff it was held, and the
stats line exists iff `connection_start` was recorded (faulting on a
zero duration). -/
theorem disconnect_spec (now : ℚ) (s : ClientState) :
    disconnect now s =
      (match s.connection_start with
      | some t0 =>
          if now - t0 = 0 then Except.error ()
          else Except.ok ({ s with is_streaming := false, camera := false, websocket := false },
              ⟨s.camera, s.websocket,
                some (now - t0, s.frame_count, (s.frame_count : ℚ) / (now - t0))⟩)
      | none => Except.ok ({ s with is_streaming := false, camera := false, websocket := false },
          ⟨s.camera, s.websocket, none⟩)) := by
  cases hcam : s.camera <;> cases hws : s.websocket <;> cases hcs : s.connection_start <;>
    simp [disconnect, hcam, hws, hcs]

/-- C7: `disconnect` is idempotent.  Called on a client on which
nothing was ever opened it succeeds, releases nothing and leaves the
state as it was; and after any successful `disconnect`, a second call
at any later time succeeds, releases no camera, closes no websocket,
and returns the very same state, so running it twice equals running it
once. -/
theorem disconnect_idempotent :
    (∀ now : ℚ, disconnect now initialState
        = Except.ok (initialState, ⟨false, false, none⟩))
    ∧ (∀ (s s1 : ClientState) (l1 : DisconnectLog) (t1 t2 : ℚ), t1 ≤ t2 →
        (∀ t0, s.connection_start = some t0 → t0 ≤ t1) →
        disconnect t1 s = Except.ok (s1, l1) →
        ∃ l2, disconnect t2 s1 = Except.ok (s1, l2)
          ∧ l2.camera_released = false ∧ l2.websocket_closed = false) := by
  constructor
  · intro now
    rfl
  · intro s s1 l1 t1 t2 hle hmono h1
    rw [disconnect_spec] at h1
    cases hcs : s.connection_start with
    | none =>
        simp only [hcs, Except.ok.injEq, Prod.mk.injEq] at h1
        obtain ⟨hs1, -⟩ := h1
        subst hs1
        refine ⟨⟨false, false, none⟩, ?_, rfl, rfl⟩
        rw [disconnect_spec]
    | some t0 =>
        simp only [hcs] at h1
        split at h1
        · exact Except.noConfusion h1
        · rename_i hnz
          obtain ⟨hs1, -⟩ := Prod.mk.inj (Except.ok.inj h1)
          subst hs1
          have hne : t2 - t0 ≠ 0 := by
            have h1' : t1 ≠ t0 := sub_ne_zero.mp hnz
            have h2' : t0 < t1 := lt_of_le_of_ne (hmono t0 hcs) (Ne.symm h1')
            have h3' : t0 < t2 := lt_of_lt_of_le h2' hle
            exact sub_ne_zero.mpr (Ne.symm (ne_of_lt h3'))
          refine ⟨⟨false, false,
              some (t2 - t0, s.frame_count, (s.frame_count : ℚ) / (t2 - t0))⟩, ?_, rfl, rfl⟩
          rw [disconnect_spec]
          simp [hcs, hne]

/-- Witness for C7: a never-connected client, and a second disconnect
after a clean one-second session's disconnect. -/
theorem disconnect_idempotent_witness :
    disconnect 0 initialState = Except.ok (initialState, ⟨false, false, none⟩)
    ∧ ∃ l2,
        disconnect 1 { readyState with is_streaming := false, camera := false, websocket := false }
          = Except.ok
              ({ readyState with is_streaming := false, camera := false, websocket := false }, l2)
        ∧ l2.camera_released = false ∧ l2.websocket_closed = false := by
  constructor
  · exact disconnect_idempotent.1 0
  · refine disconnect_idempotent.2 readyState _ ⟨true, true, some (1, 0, 0)⟩ 1 1
      (le_refl 1) ?_ ?_
    · intro t0 ht
      have h0 : t0 = 0 := by
        have := (show readyState.connection_start = some 0 from rfl).symm.trans ht
        simpa using this.symm
      subst h0
      exact zero_le_one
    · rw [disconnect_spec]
      simp [readyState, initialState, initClient]

/-! ## C1 -/

theorem sorted_take_drop_keys (st : List (Nat × ℚ)) (d : Nat)
    (hsort : st.Pairwise (fun p q => p.1 < q.1)) :
    ∀ p ∈ st.take d, ∀ q ∈ st.drop d, p.1 < q.1 := by
  have h := hsort
  rw [← List.take_append_drop d st] at h
  exact (List.pairwise_append.mp h).2.2

theorem filter_keys_drop (st : List (Nat × ℚ)) (d : Nat)
    (hsort : st.Pairwise (fun p q => p.1 < q.1)) :
    st.filter (fun p => decide (p.1 ∉ (st.map Prod.fst).take d)) = st.drop d := by
  have hcross := sorted_take_drop_keys st d hsort
  have hok : (st.map Prod.fst).take d = (st.take d).map Prod.fst := by
    rw [List.map_take]
  rw [hok]
  set K := (st.take d).map Prod.fst with hK
  nth_rewrite 1 [← List.take_append_drop d st]
  rw [List.filter_append]
  have h1 : (st.take d).filter (fun p => decide (p.1 ∉ K)) = [] := by
    rw [List.filter_eq_nil_iff]
    intro p hp
    simp only [decide_eq_true_eq, not_not]
    rw [hK]
    exact List.mem_map.mpr ⟨p, hp, rfl⟩
  have h2 : (st.drop d).filter (fun p => decide (p.1 ∉ K)) = st.drop d := by
    rw [List.filter_eq_self]
    intro q hq
    simp only [decide_eq_true_eq]
    intro hmem
    rw [hK] at hmem
    obtain ⟨p, hp, hpq⟩ := List.mem_map.mp hmem
    exact absurd (hpq ▸ hcross p hp q hq) (lt_irrefl _)
  rw [h1, h2, List.nil_append]

/-- On a strictly key-sorted dict the source's sort-and-trim eviction
keeps exactly the final 1000 entries. -/
theorem evictOldSendTimes_eq_drop (st : List (Nat × ℚ))
    (hsort : st.Pairwise (fun p q => p.1 < q.1)) :
    evictOldSendTimes st = st.drop (st.length - 1000) := by
  unfold evictOldSendTimes
  split
  · have hmapsort : (st.map Prod.fst).Sorted (· ≤ ·) :=
      List.pairwise_map.mpr (hsort.imp (fun h => le_of_lt h))
    simp only [List.mergeSort_eq_self hmapsort, List.length_map]
    exact filter_keys_drop st _ hsort
  · rename_i h
    rw [Nat.sub_eq_zero_of_le (by omega), List.drop_zero]

theorem send_frame_SendInv (t : ℚ) (ok : Bool) (s : ClientState) (h : SendInv s) :
    SendInv (send_frame t ok s).1 := by
  obtain ⟨hsort, hbound, hlen⟩ := h
  unfold send_frame
  by_cases hrdy : (!s.websocket || !s.is_authenticated) = true
  · simp only [hrdy, if_true]
    exact ⟨hsort, hbound, hlen⟩
  · simp only [hrdy, Bool.false_eq_true, if_false]
    have hins : (s.send_times ++ [(s.frame_count + 1, t)]).Pairwise
        (fun p q => p.1 < q.1) := by
      rw [List.pairwise_append]
      refine ⟨hsort, List.pairwise_singleton _ _, ?_⟩
      intro p hp q hq
      rw [List.mem_singleton] at hq
      subst hq
      exact Nat.lt_succ_of_le (hbound p hp)
    refine ⟨?_, ?_, ?_⟩
    · simp only
      rw [evictOldSendTimes_eq_drop _ hins]
      exact List.Pairwise.sublist (List.drop_sublist _ _) hins
    · intro p hp
      simp only at hp ⊢
      rw [evictOldSendTimes_eq_drop _ hins] at hp
      rcases List.mem_append.mp (List.mem_of_mem_drop hp) with hm | hm
      · exact Nat.le_succ_of_le (hbound p hm)
      · rw [List.mem_singleton] at hm
        subst hm
        exact Nat.le_refl _
    · simp only
      rw [evictOldSendTimes_eq_drop _ hins, List.length_drop]
      omega

theorem runSends_SendInv (events : List (ℚ × Bool)) :
    ∀ s, SendInv s → SendInv (runSends s events) := by
  induction events with
  | nil => intro s h; simpa [runSends] using h
  | cons e rest ih =>
      intro s h
      simp only [runSends, List.foldl_cons]
      exact ih (send_frame e.1 e.2 s).1 (send_frame_SendInv e.1 e.2 s h)

/-- C1: after every sequence of `send_frame` operations the pending
map holds at most 1000 entries (together with the strictly-sorted-keys
run invariant that makes the eviction rule meaningful), and on any
strictly key-sorted dict — as every reachable one is — the eviction
step keeps exactly the last 1000 entries, every evicted entry's
sequence number being smaller than every survivor's. -/
theorem pending_send_bounded_eviction :
    (∀ events : List (ℚ × Bool),
        SendInv (runSends initialState events)
        ∧ (runSends initialState events).send_times.length ≤ 1000)
    ∧ (∀ st : List (Nat × ℚ), st.Pairwise (fun p q => p.1 < q.1) →
        evictOldSendTimes st = st.drop (st.length - 1000)
        ∧ ∀ p ∈ st.take (st.length - 1000), ∀ q ∈ st.drop (st.length - 1000), p.1 < q.1) := by
  constructor
  · intro events
    have h := runSends_SendInv events initialState
      ⟨List.Pairwise.nil, by simp [initialState, initClient], by simp [initialState, initClient]⟩
    exact ⟨h, h.2.2⟩
  · intro st hsort
    exact ⟨evictOldSendTimes_eq_drop st hsort, sorted_take_drop_keys st _ hsort⟩

/-- Witness for C1: a single send, and the (vacuous below the cap)
eviction characterisation on a two-entry dict. -/
theorem pending_send_bounded_eviction_witness :
    (runSends initialState [(0, true)]).send_times.length ≤ 1000
    ∧ evictOldSendTimes [(1, 0), (2, 1)]
        = [((1 : Nat), (0 : ℚ)), (2, 1)].drop ([((1 : Nat), (0 : ℚ)), (2, 1)].length - 1000) :=
  ⟨(pending_send_bounded_eviction.1 [(0, true)]).2,
   (pending_send_bounded_eviction.2 [(1, 0), (2, 1)] (by decide)).1⟩

/-! ## C2 (amended theorem) -/

theorem sentNumbers_append (a b : List LoopAction) :
    sentNumbers (a ++ b) = sentNumbers a ++ sentNumbers b := by
  induction a with
  | nil => rfl
  | cons x xs ih => cases x <;> simp [sentNumbers, ih]

/-- From any connected, authenticated state, a producer run transmits
consecutively numbered frames continuing the current counter. -/
theorem stream_frames_sent_range (events : List ProdEvent) :
    ∀ (s : ClientState) (last : ℚ), s.websocket = true → s.is_authenticated = true →
      ∃ k, sentNumbers (stream_frames s last events).2
            = List.range' (s.frame_count + 1) k := by
  induction events with
  | nil => intro s last hw ha; exact ⟨0, rfl⟩
  | cons e rest ih =>
      intro s last hw ha
      cases e with
      | iter cap tSend ok now tEnd =>
          cases hstr : s.is_streaming
          · refine ⟨0, ?_⟩
            simp [stream_frames, hstr, sentNumbers]
          · cases htr : truthy cap
            · obtain ⟨k, hk⟩ := ih s tEnd hw ha
              refine ⟨k, ?_⟩
              simp only [stream_frames, hstr, htr, Bool.false_eq_true, if_false, if_true]
              rw [sentNumbers_append, sentNumbers_append]
              have hslept : sentNumbers
                  (if 0 < max 0 (1 / (s.frame_rate : ℚ) - (now - last)) then
                    [LoopAction.slept (max 0 (1 / (s.frame_rate : ℚ) - (now - last)))]
                  else []) = [] := by
                split <;> rfl
              rw [hslept]
              simpa [sentNumbers] using hk
            · obtain ⟨k, hk⟩ := ih (send_frame tSend ok s).1 tEnd
                (by rw [(send_frame_preserves_flags tSend ok s).1, hw])
                (by rw [(send_frame_preserves_flags tSend ok s).2.1, ha])
              refine ⟨k + 1, ?_⟩
              simp only [stream_frames, hstr, htr, if_true]
              rw [sentNumbers_append, sentNumbers_append]
              have hslept : sentNumbers
                  (if 0 < max 0 (1 / (s.frame_rate : ℚ) - (now - last)) then
                    [LoopAction.slept (max 0 (1 / (s.frame_rate : ℚ) - (now - last)))]
                  else []) = [] := by
                split <;> rfl
              rw [hslept]
              rw [(send_frame_increments tSend ok s hw ha).1] at hk ⊢
              rw [List.range'_succ]
              simpa [sentNumbers] using hk
      | fault now =>
          cases hstr : s.is_streaming
          · refine ⟨0, ?_⟩
            simp [stream_frames, hstr, sentNumbers]
          · obtain ⟨k, hk⟩ := ih s last hw ha
            refine ⟨k, ?_⟩
            simp only [stream_frames, hstr, if_true]
            simpa [sentNumbers] using hk

/-- C2 amended: `frame_count` is incremented exactly once per
`send_frame` call that passes the connection/authentication check,
whether or not the transmission itself succeeds (the increment happens
before the send, so a failed transmit still counts — see the
counterexample).  Consequently the frame numbers transmitted by a
producer run from a fresh session are exactly 1, 2, 3, …: strictly
increasing from 1 with no gaps, regardless of how many captures or
transmissions fail. -/
theorem frame_numbers_sequential :
    (∀ (s : ClientState) (t : ℚ) (ok : Bool),
        s.websocket = true → s.is_authenticated = true →
        (send_frame t ok s).1.frame_count = s.frame_count + 1 ∧ (send_frame t ok s).2 = ok)
    ∧ (∀ (last : ℚ) (events : List ProdEvent),
        sentNumbers (stream_frames readyState last events).2
          = List.range' 1
              (sentNumbers (stream_frames readyState last events).2).length) := by
  constructor
  · exact fun s t ok hw ha => send_frame_increments t ok s hw ha
  · intro last events
    obtain ⟨k, hk⟩ := stream_frames_sent_range events readyState last rfl rfl
    rw [hk]
    simp [List.length_range', readyState, initialState, initClient]

/-- Witness for C2 amended: two iterations, the second transmit
failing, still hand frames 1 and 2 to the socket in order. -/
theorem frame_numbers_sequential_witness :
    ((send_frame 0 true readyState).1.frame_count = readyState.frame_count + 1
      ∧ (send_frame 0 true readyState).2 = true)
    ∧ sentNumbers (stream_frames readyState 0
          [ProdEvent.iter (some "zg==") 0 true 0 0, ProdEvent.iter (some "aa==") 1 false 1 1]).2
        = List.range' 1
            (sentNumbers (stream_frames readyState 0
              [ProdEvent.iter (some "zg==") 0 true 0 0,
               ProdEvent.iter (some "aa==") 1 false 1 1]).2).length :=
  ⟨frame_numbers_sequential.1 readyState 0 true rfl rfl,
   frame_numbers_sequential.2 0
      [ProdEvent.iter (some "zg==") 0 true 0 0, ProdEvent.iter (some "aa==") 1 false 1 1]⟩
